import Mathlib

/-!
Shallow embedding of the avp-tropic repository: the AVP vault layer
(src/avp/avp_tropic.h), the STM32U5 Tropic Click port layer
(libtropic_port_stm32u5_tropic_click.c), and the repository's functional
tests.  C byte buffers are modelled as `Nat → Nat` (index to byte value) or
`List Nat`; C pointers that may be NULL are modelled as `Option`; results of
external libtropic / HAL calls are passed in as explicit parameters, and the
libtropic / SPI calls a function performs are returned as an explicit trace
list, so that "no bus I/O" is the trace being empty.
-/

/-- libtropic return codes used by the sources in this repository.  Numeric
values are immaterial to the claims; the constructors mirror the C enum
names. -/
inductive lt_ret_t where
  | LT_OK
  | LT_FAIL
  | LT_L1_SPI_ERROR
  | LT_L1_DATA_LEN_ERROR
  | LT_L1_INT_TIMEOUT
  | LT_L3_SLOT_IS_EMPTY
  deriving DecidableEq, Repr

/-- avp_ret_t from src/avp/avp_tropic.h. -/
inductive avp_ret_t where
  | AVP_OK
  | AVP_ERR_NOT_INITIALIZED
  | AVP_ERR_AUTHENTICATION_FAILED
  | AVP_ERR_SESSION_EXPIRED
  | AVP_ERR_SECRET_NOT_FOUND
  | AVP_ERR_CAPACITY_EXCEEDED
  | AVP_ERR_INVALID_NAME
  | AVP_ERR_HARDWARE_ERROR
  | AVP_ERR_CRYPTO_ERROR
  | AVP_ERR_INTERNAL
  deriving DecidableEq, Repr

/-- avp_session_state_t from src/avp/avp_tropic.h. -/
inductive avp_session_state_t where
  | AVP_SESSION_INACTIVE
  | AVP_SESSION_ACTIVE
  | AVP_SESSION_EXPIRED
  | AVP_SESSION_TERMINATED
  deriving DecidableEq, Repr

/-- The libtropic calls the AVP layer can issue; a function's bus activity is
recorded as a list of these.  `r_mem_data_write`/`read` record the slot index
and the byte count handed to libtropic. -/
inductive LtCall where
  | login (pin : List Nat)
  | r_mem_data_write (udata_slot : Nat) (size : Nat)
  | r_mem_data_read (udata_slot : Nat) (size : Nat)
  | r_mem_data_erase (udata_slot : Nat)
  deriving DecidableEq, Repr

def AVP_MAX_SECRET_NAME_LEN : Nat := 255

def AVP_MAX_SECRET_VALUE_LEN : Nat := 65536

def AVP_DEFAULT_TTL_SECONDS : Nat := 300

def AVP_SESSION_ID_LEN : Nat := 32

/-- Bytes of a Lean string literal (all literals used are ASCII). -/
def strBytes (s : String) : List Nat := s.data.map (fun c => c.toNat)

/-- AVP_SESSION_PREFIX from src/avp/avp_tropic.h (the C macro name ends in a
token this development cannot use as an identifier, hence the shortened Lean
name): the bytes of "avp_sess_". -/
def avp_session_pref : List Nat := strBytes "avp_sess_"

/-- The constant charset generate_session_id draws suffix characters from. -/
def avp_charset : List Nat :=
  strBytes "abcdefghijklmnopqrstuvwxyzABCDEFGHIJKLMNOPQRSTUVWXYZ0123456789"

/-- avp_vault_t from src/avp/avp_tropic.h.  The embedded libtropic handle
carries no state any claim depends on (the AVP code only passes it through
to libtropic calls, whose outcomes are modelled as parameters), so it is not
part of the model.  `session_id` is the 64-byte char array, as a map from
index to byte value. -/
structure avp_vault_t where
  session_state : avp_session_state_t
  session_id : Nat → Nat
  session_created_at : Nat
  session_ttl : Nat
  workspace : String
  authenticated : Bool

/-- Write one byte of a buffer. -/
def setByte (b : Nat → Nat) (i v : Nat) : Nat → Nat :=
  fun j => if j = i then v else b j

/-- generate_session_id from src/avp/avp_tropic.c: snprintf copies the
"avp_sess_" bytes (truncated to max_len - 1) and null-terminates; the loop
writes charset[i % 62] at indices i with prefix_len ≤ i < prefix_len + 32
and i < max_len - 1; finally index prefix_len + 32 is set to the null byte
(the C code performs this last store unconditionally, as modelled here).
The sole caller passes max_len = 64 (sizeof(vault->session_id)); the size_t
wraparound of max_len - 1 at max_len = 0 is outside the model. -/
def generate_session_id (session_id : Nat → Nat) (max_len : Nat) : Nat → Nat :=
  let pref_len := avp_session_pref.length
  let ncopy := min pref_len (max_len - 1)
  let b1 : Nat → Nat := fun j => if j < ncopy then avp_session_pref.getD j 0 else session_id j
  let b2 := setByte b1 ncopy 0
  let idxs := (List.range (pref_len + AVP_SESSION_ID_LEN)).filter
    (fun i => decide (pref_len ≤ i) && decide (i < max_len - 1))
  let b3 := idxs.foldl (fun b i => setByte b i (avp_charset.getD (i % 62) 0)) b2
  setByte b3 (pref_len + AVP_SESSION_ID_LEN) 0

/-- The C string held in the 64-byte session_id array: its bytes up to the
first null terminator. -/
def session_id_cstring (buf : Nat → Nat) : List Nat :=
  ((List.range 64).map buf).takeWhile (fun b => b != 0)

/-- Result of avp_authenticate: the return code, the vault after the call,
and the libtropic calls issued. -/
structure avp_auth_result_t where
  ret : avp_ret_t
  vault : avp_vault_t
  lt_calls : List LtCall

/-- The tail of avp_authenticate after the optional lt_login: generate the
session id into vault->session_id (sizeof = 64) and set the session
parameters. -/
def avp_auth_finish (v : avp_vault_t) (ttl_seconds : Nat) : avp_vault_t :=
  { v with
    session_id := generate_session_id v.session_id 64
    session_state := avp_session_state_t.AVP_SESSION_ACTIVE
    session_ttl := if ttl_seconds > 0 then ttl_seconds else AVP_DEFAULT_TTL_SECONDS
    session_created_at := 0
    authenticated := true }

/-- avp_authenticate from src/avp/avp_tropic.c, for a non-NULL vault (a NULL
vault returns AVP_ERR_INTERNAL before doing anything).  `workspace` and
`pin` are the possibly-NULL pointer arguments; `lt_login_ret` is the value
lt_login would return if invoked (its outcome depends on the chip).  The
workspace strncpy is bounded by sizeof(vault->workspace) - 1 = 255. -/
def avp_authenticate (vault : avp_vault_t) (workspace : Option String)
    (pin : Option (List Nat)) (ttl_seconds : Nat) (lt_login_ret : lt_ret_t) :
    avp_auth_result_t :=
  let v1 : avp_vault_t :=
    match workspace with
    | some w => { vault with workspace := String.mk (w.data.take 255) }
    | none => { vault with workspace := "default" }
  match pin with
  | some p =>
    if lt_login_ret ≠ lt_ret_t.LT_OK then
      { ret := avp_ret_t.AVP_ERR_AUTHENTICATION_FAILED, vault := v1, lt_calls := [LtCall.login p] }
    else
      { ret := avp_ret_t.AVP_OK, vault := avp_auth_finish v1 ttl_seconds
        lt_calls := [LtCall.login p] }
  | none =>
      { ret := avp_ret_t.AVP_OK, vault := avp_auth_finish v1 ttl_seconds, lt_calls := [] }

/-- avp_deinit from src/avp/avp_tropic.c, for a non-NULL vault (a NULL vault
returns AVP_ERR_INTERNAL).  lt_deinit(&vault->lt_handle) is invoked first and
its return value is discarded by the C code; the handle is outside the model.
The session id bytes are memset to zero, the session is marked inactive and
unauthenticated, and AVP_OK is returned unconditionally. -/
def avp_deinit (vault : avp_vault_t) : avp_ret_t × avp_vault_t :=
  (avp_ret_t.AVP_OK,
   { vault with
     session_id := fun _ => 0
     session_state := avp_session_state_t.AVP_SESSION_INACTIVE
     authenticated := false })

/-- Whether a byte is an ASCII letter, as tested by validate_secret_name. -/
def is_ascii_letter (c : Nat) : Bool :=
  (decide (65 ≤ c) && decide (c ≤ 90)) || (decide (97 ≤ c) && decide (c ≤ 122))

/-- Whether a byte may appear after the first character of a secret name:
letters, digits, underscore (95), period (46), hyphen (45). -/
def is_name_char (c : Nat) : Bool :=
  is_ascii_letter c || (decide (48 ≤ c) && decide (c ≤ 57)) || c == 95 || c == 46 || c == 45

/-- validate_secret_name from src/avp/avp_tropic.c.  The name is the byte
list of the C string (no interior nulls); `none` is the NULL pointer.  NULL
or empty fails, then length > 255 fails, then the first character must be a
letter and the rest name characters. -/
def validate_secret_name (name : Option (List Nat)) : Bool :=
  match name with
  | none => false
  | some [] => false
  | some (c :: rest) =>
    if (c :: rest).length > AVP_MAX_SECRET_NAME_LEN then false
    else if !is_ascii_letter c then false
    else rest.all is_name_char

/-- Result of avp_store: return code and the libtropic calls issued. -/
structure avp_store_result_t where
  ret : avp_ret_t
  lt_calls : List LtCall
  deriving DecidableEq, Repr

/-- avp_store from src/avp/avp_tropic.c, for a non-NULL vault.  `name` is the
possibly-NULL name pointer, `value_present` whether the value pointer is
non-NULL, `lt_write_ret` the value lt_r_mem_data_write would return.  Checks
run in source order: NULL arguments, authentication, name validity, value
length; only then is lt_r_mem_data_write(handle, 0, value, value_len)
issued. -/
def avp_store (vault : avp_vault_t) (name : Option (List Nat)) (value_present : Bool)
    (value_len : Nat) (lt_write_ret : lt_ret_t) : avp_store_result_t :=
  match name, value_present with
  | some n, true =>
    if !vault.authenticated then ⟨avp_ret_t.AVP_ERR_NOT_INITIALIZED, []⟩
    else if !validate_secret_name (some n) then ⟨avp_ret_t.AVP_ERR_INVALID_NAME, []⟩
    else if value_len > AVP_MAX_SECRET_VALUE_LEN then ⟨avp_ret_t.AVP_ERR_INTERNAL, []⟩
    else if lt_write_ret ≠ lt_ret_t.LT_OK then
      ⟨avp_ret_t.AVP_ERR_HARDWARE_ERROR, [LtCall.r_mem_data_write 0 value_len]⟩
    else ⟨avp_ret_t.AVP_OK, [LtCall.r_mem_data_write 0 value_len]⟩
  | _, _ => ⟨avp_ret_t.AVP_ERR_INTERNAL, []⟩

/-- Result of avp_retrieve: return code, the value left in *value_len, and
the libtropic calls issued. -/
structure avp_retrieve_result_t where
  ret : avp_ret_t
  value_len_out : Nat
  lt_calls : List LtCall
  deriving DecidableEq, Repr

/-- avp_retrieve from src/avp/avp_tropic.c, for a non-NULL vault.
`value_len` is the in-value of *value_len (`none` = NULL pointer); the C code
truncates it to uint16_t (mod 65536) before the read.  `lt_read_ret` and
`lt_read_len` are the status and the uint16 length lt_r_mem_data_read would
report.  LT_L3_SLOT_IS_EMPTY maps to AVP_ERR_SECRET_NOT_FOUND, any other
failure to AVP_ERR_HARDWARE_ERROR (leaving *value_len untouched); on success
*value_len receives the chip-reported length. -/
def avp_retrieve (vault : avp_vault_t) (name : Option (List Nat)) (value_present : Bool)
    (value_len : Option Nat) (lt_read_ret : lt_ret_t) (lt_read_len : Nat) :
    avp_retrieve_result_t :=
  match name, value_present, value_len with
  | some n, true, some vlen =>
    if !vault.authenticated then ⟨avp_ret_t.AVP_ERR_NOT_INITIALIZED, vlen, []⟩
    else if !validate_secret_name (some n) then ⟨avp_ret_t.AVP_ERR_INVALID_NAME, vlen, []⟩
    else
      let call := LtCall.r_mem_data_read 0 (vlen % 65536)
      if lt_read_ret ≠ lt_ret_t.LT_OK then
        if lt_read_ret = lt_ret_t.LT_L3_SLOT_IS_EMPTY then
          ⟨avp_ret_t.AVP_ERR_SECRET_NOT_FOUND, vlen, [call]⟩
        else ⟨avp_ret_t.AVP_ERR_HARDWARE_ERROR, vlen, [call]⟩
      else ⟨avp_ret_t.AVP_OK, lt_read_len % 65536, [call]⟩
  | _, _, _ => ⟨avp_ret_t.AVP_ERR_INTERNAL, value_len.getD 0, []⟩

/-- Result of avp_delete: return code, the value stored through the
`deleted` out-pointer (if non-NULL), and the libtropic calls issued. -/
structure avp_delete_result_t where
  ret : avp_ret_t
  deleted : Option Bool
  lt_calls : List LtCall
  deriving DecidableEq, Repr

/-- avp_delete from src/avp/avp_tropic.c, for a non-NULL vault.
`deleted_present` is whether the `deleted` out-pointer is non-NULL,
`lt_erase_ret` the value lt_r_mem_data_erase would return.  Note the source
does not validate the name here; after the NULL and authentication checks it
always erases, sets *deleted to whether the erase reported LT_OK, and
returns AVP_OK regardless of the erase outcome. -/
def avp_delete (vault : avp_vault_t) (name : Option (List Nat)) (deleted_present : Bool)
    (lt_erase_ret : lt_ret_t) : avp_delete_result_t :=
  match name with
  | some _ =>
    if !vault.authenticated then ⟨avp_ret_t.AVP_ERR_NOT_INITIALIZED, none, []⟩
    else
      ⟨avp_ret_t.AVP_OK,
       if deleted_present then some (lt_erase_ret == lt_ret_t.LT_OK) else none,
       [LtCall.r_mem_data_erase 0]⟩
  | none => ⟨avp_ret_t.AVP_ERR_INTERNAL, none, []⟩

/-- A concrete vault value (fields as avp_init leaves them) used to
instantiate universally quantified theorems. -/
def sample_vault : avp_vault_t :=
  { session_state := avp_session_state_t.AVP_SESSION_INACTIVE
    session_id := fun _ => 0
    session_created_at := 0
    session_ttl := 0
    workspace := "default"
    authenticated := false }

/-- The sample vault after a successful authentication check. -/
def sample_vault_auth : avp_vault_t := { sample_vault with authenticated := true }

/-- HAL_StatusTypeDef from the STM32 HAL, as consumed by the port. -/
inductive HAL_StatusTypeDef where
  | HAL_OK
  | HAL_ERROR
  | HAL_BUSY
  | HAL_TIMEOUT
  deriving DecidableEq, Repr

/-- Modelled from the spec: the numeric value of TR01_L1_LEN_MAX is defined
in a libtropic header that is not under src; §6 of the spec fixes the L1
frame at a total of at most 256 bytes (252-byte max payload plus framing). -/
def TR01_L1_LEN_MAX : Nat := 256

/-- An SPI bus operation performed by the port: one full-duplex
transmit/receive of `size` bytes starting at `offset` in the L2 buffer. -/
inductive SpiOp where
  | transmitReceive (offset : Nat) (size : Nat) (timeout_ms : Nat)
  deriving DecidableEq, Repr

/-- The number of bytes an SPI operation clocks out. -/
def SpiOp.frame_size : SpiOp → Nat
  | .transmitReceive _ size _ => size

/-- Result of lt_port_spi_transfer: return code plus the SPI operations
performed. -/
structure lt_spi_transfer_result_t where
  ret : lt_ret_t
  spi_ops : List SpiOp
  deriving DecidableEq, Repr

/-- lt_port_spi_transfer from the STM32U5 Tropic Click port
(src/unnamed/part_001): if offset + tx_data_length exceeds TR01_L1_LEN_MAX
it returns LT_L1_DATA_LEN_ERROR before any bus access; otherwise it performs
one HAL_SPI_TransmitReceive of tx_data_length bytes at the given buffer
offset, mapping a HAL failure to LT_L1_SPI_ERROR.  `hal_ret` is the status
HAL_SPI_TransmitReceive would report.  In C, offset is uint8_t and
tx_data_length uint16_t, so the comparison is exact int arithmetic. -/
def lt_port_spi_transfer (offset : Nat) (tx_data_length : Nat) (timeout_ms : Nat)
    (hal_ret : HAL_StatusTypeDef) : lt_spi_transfer_result_t :=
  if offset + tx_data_length > TR01_L1_LEN_MAX then
    ⟨lt_ret_t.LT_L1_DATA_LEN_ERROR, []⟩
  else if hal_ret ≠ HAL_StatusTypeDef.HAL_OK then
    ⟨lt_ret_t.LT_L1_SPI_ERROR, [SpiOp.transmitReceive offset tx_data_length timeout_ms]⟩
  else ⟨lt_ret_t.LT_OK, [SpiOp.transmitReceive offset tx_data_length timeout_ms]⟩

/-- SPI direction values used by the port. -/
inductive SpiDirection where
  | SPI_DIRECTION_2LINES
  | SPI_DIRECTION_2LINES_TXONLY
  | SPI_DIRECTION_1LINE
  deriving DecidableEq, Repr

/-- SPI clock phase values. -/
inductive SpiClkPhase where
  | SPI_PHASE_1EDGE
  | SPI_PHASE_2EDGE
  deriving DecidableEq, Repr

/-- SPI clock polarity values. -/
inductive SpiClkPolarity where
  | SPI_POLARITY_LOW
  | SPI_POLARITY_HIGH
  deriving DecidableEq, Repr

/-- SPI data size values. -/
inductive SpiDataSize where
  | SPI_DATASIZE_8BIT
  | SPI_DATASIZE_16BIT
  deriving DecidableEq, Repr

/-- SPI bit-order values. -/
inductive SpiFirstBit where
  | SPI_FIRSTBIT_MSB
  | SPI_FIRSTBIT_LSB
  deriving DecidableEq, Repr

/-- SPI slave-select management values. -/
inductive SpiNss where
  | SPI_NSS_SOFT
  | SPI_NSS_HARD_INPUT
  | SPI_NSS_HARD_OUTPUT
  deriving DecidableEq, Repr

/-- SPI master/slave mode values. -/
inductive SpiMode where
  | SPI_MODE_MASTER
  | SPI_MODE_SLAVE
  deriving DecidableEq, Repr

/-- SPI CRC-calculation switch. -/
inductive SpiCrcCalc where
  | SPI_CRCCALCULATION_DISABLE
  | SPI_CRCCALCULATION_ENABLE
  deriving DecidableEq, Repr

/-- SPI TI-mode switch. -/
inductive SpiTiMode where
  | SPI_TIMODE_DISABLE
  | SPI_TIMODE_ENABLE
  deriving DecidableEq, Repr

/-- SPI NSS-pulse switch. -/
inductive SpiNssPulse where
  | SPI_NSS_PULSE_DISABLE
  | SPI_NSS_PULSE_ENABLE
  deriving DecidableEq, Repr

/-- SPI keep-IO-state switch. -/
inductive SpiKeepIoState where
  | SPI_MASTER_KEEP_IO_STATE_ENABLE
  | SPI_MASTER_KEEP_IO_STATE_DISABLE
  deriving DecidableEq, Repr

/-- Baud-rate prescaler: the default SPI_BAUDRATEPRESCALER_32 or a raw
device-supplied register value (its numeric encoding is immaterial here). -/
inductive SpiBaudPrescaler where
  | SPI_BAUDRATEPRESCALER_32
  | raw (v : Nat)
  deriving DecidableEq, Repr

/-- SPI_InitTypeDef: the HAL SPI configuration fields the port fills in. -/
structure SPI_InitTypeDef where
  BaudRatePrescaler : SpiBaudPrescaler
  Direction : SpiDirection
  CLKPhase : SpiClkPhase
  CLKPolarity : SpiClkPolarity
  CRCCalculation : SpiCrcCalc
  DataSize : SpiDataSize
  FirstBit : SpiFirstBit
  NSS : SpiNss
  TIMode : SpiTiMode
  Mode : SpiMode
  NSSPMode : SpiNssPulse
  MasterKeepIOState : SpiKeepIoState
  deriving DecidableEq, Repr

/-- The SPI configuration lt_port_init (src/unnamed/part_001) writes into
the HAL init structure before calling HAL_SPI_Init, as a function of the
device's baudrate_prescaler field (0 selects the default prescaler). -/
def lt_port_init_spi_config (baudrate_prescaler : Nat) : SPI_InitTypeDef :=
  { BaudRatePrescaler :=
      if baudrate_prescaler = 0 then SpiBaudPrescaler.SPI_BAUDRATEPRESCALER_32
      else SpiBaudPrescaler.raw baudrate_prescaler
    Direction := SpiDirection.SPI_DIRECTION_2LINES
    CLKPhase := SpiClkPhase.SPI_PHASE_1EDGE
    CLKPolarity := SpiClkPolarity.SPI_POLARITY_LOW
    CRCCalculation := SpiCrcCalc.SPI_CRCCALCULATION_DISABLE
    DataSize := SpiDataSize.SPI_DATASIZE_8BIT
    FirstBit := SpiFirstBit.SPI_FIRSTBIT_MSB
    NSS := SpiNss.SPI_NSS_SOFT
    TIMode := SpiTiMode.SPI_TIMODE_DISABLE
    Mode := SpiMode.SPI_MODE_MASTER
    NSSPMode := SpiNssPulse.SPI_NSS_PULSE_DISABLE
    MasterKeepIOState := SpiKeepIoState.SPI_MASTER_KEEP_IO_STATE_ENABLE }

/-- GPIO_PinState from the STM32 HAL: GPIO_PIN_RESET is the electrical low
level, GPIO_PIN_SET the high level. -/
inductive GPIO_PinState where
  | GPIO_PIN_RESET
  | GPIO_PIN_SET
  deriving DecidableEq, Repr

def LT_STM32U5_GPIO_CHECK_ATTEMPTS : Nat := 10

/-- Result of a chip-select operation: the level written to the CS pin and
the return code. -/
structure lt_csn_result_t where
  written : GPIO_PinState
  ret : lt_ret_t
  deriving DecidableEq, Repr

/-- lt_port_spi_csn_low from the STM32U5 Tropic Click port: writes
GPIO_PIN_RESET (low) to the CS pin, then polls the pin up to
LT_STM32U5_GPIO_CHECK_ATTEMPTS times until it reads back low; `pin_reads` is
the level observed at each poll.  Returns LT_L1_SPI_ERROR if the pin never
reads low. -/
def lt_port_spi_csn_low (pin_reads : Nat → GPIO_PinState) : lt_csn_result_t :=
  ⟨GPIO_PinState.GPIO_PIN_RESET,
   if (List.range LT_STM32U5_GPIO_CHECK_ATTEMPTS).any
        (fun i => pin_reads i == GPIO_PinState.GPIO_PIN_RESET)
   then lt_ret_t.LT_OK else lt_ret_t.LT_L1_SPI_ERROR⟩

/-- lt_port_spi_csn_high from the STM32U5 Tropic Click port: writes
GPIO_PIN_SET (high) to the CS pin and polls it back, mirroring
lt_port_spi_csn_low. -/
def lt_port_spi_csn_high (pin_reads : Nat → GPIO_PinState) : lt_csn_result_t :=
  ⟨GPIO_PinState.GPIO_PIN_SET,
   if (List.range LT_STM32U5_GPIO_CHECK_ATTEMPTS).any
        (fun i => pin_reads i == GPIO_PinState.GPIO_PIN_SET)
   then lt_ret_t.LT_OK else lt_ret_t.LT_L1_SPI_ERROR⟩

/-- Embedding of lt_test_mock_invalid_app_fw_init
(src/tests/functional_mock/lt_test_mock_invalid_app_fw_init.c).  The mock
chip reports startup mode (chip_status = READY and STARTUP bits) on the
initial mode read, acknowledges Startup_Req with REQUEST_OK while its
chip_status still carries the startup bit, and reports startup mode again on
the re-read.  The list records, in order, the return value each
LT_TEST_ASSERT in the test demands: every step - including lt_init itself,
run against a chip whose application firmware never boots - must return
LT_OK. -/
def lt_test_mock_invalid_app_fw_init_asserts : List (String × lt_ret_t) :=
  [("lt_mock_hal_enqueue_response:get_tr01_mode_startup", lt_ret_t.LT_OK),
   ("lt_mock_hal_enqueue_response:chip_status_startup", lt_ret_t.LT_OK),
   ("lt_mock_hal_enqueue_response:startup_rsp_request_ok", lt_ret_t.LT_OK),
   ("lt_mock_hal_enqueue_response:get_tr01_mode_still_startup", lt_ret_t.LT_OK),
   ("lt_init", lt_ret_t.LT_OK),
   ("lt_deinit", lt_ret_t.LT_OK)]

/-- The return value the repository's mock test requires of lt_init when the
application firmware fails to boot (looked up from the assertion table). -/
def lt_init_ret_when_app_fw_fails : lt_ret_t :=
  (lt_test_mock_invalid_app_fw_init_asserts.lookup "lt_init").getD lt_ret_t.LT_FAIL

/-- Modelled from the spec: the numeric value of TR01_PING_LEN_MAX is defined
in a libtropic header that is not under src; §4.3 and §8 of the spec fix the
maximum ping payload at 4096 bytes. -/
def TR01_PING_LEN_MAX : Nat := 4096

/-- L3 session state, per §3/§4.3 of the spec: Idle, Handshaking, or
Established with the directional keys and the command/result counters. -/
inductive lt_l3_session_t where
  | Idle
  | Handshaking
  | Established (k_cmd : List Nat) (k_res : List Nat) (n_cmd : Nat) (n_res : Nat)
  deriving DecidableEq, Repr

/-- Typed command errors, per §7 of the spec. -/
inductive lt_cmd_err_t where
  | NoSession
  | LengthOutOfRange
  | SlotOutOfRange
  deriving DecidableEq, Repr

/-- Modelled from the spec: the handshake implementation
(lt_verify_chip_and_start_secure_session) is not under src - only the
functional test calls it.  Per §4.3, a handshake on a pairing slot in 0..3
that verifies the chip tag leaves the session Established with both counters
zero; slot indexes above 3 are an argument error (§8).  The key-derivation
transcript is abstracted: the derived directional keys are parameters. -/
def lt_handshake (pairing_slot : Nat) (k_cmd : List Nat) (k_res : List Nat) :
    Except lt_cmd_err_t lt_l3_session_t :=
  if pairing_slot > 3 then Except.error lt_cmd_err_t.SlotOutOfRange
  else Except.ok (lt_l3_session_t.Established k_cmd k_res 0 0)

/-- Modelled from the spec: lt_ping's implementation is not under src - only
the functional test lt_test_rev_init_after_deinit calls it.  Per §4.3 the
typed surface is ping(buf ≤ 4096) -> echoed buf, requiring an Established
session, with n_cmd and n_res each incremented by one after a successful
send and receive; §8 fixes the 0..4096 boundary. -/
def lt_ping (s : lt_l3_session_t) (msg_out : List Nat) :
    Except lt_cmd_err_t (List Nat × lt_l3_session_t) :=
  match s with
  | lt_l3_session_t.Established kc kr nc nr =>
    if msg_out.length > TR01_PING_LEN_MAX then Except.error lt_cmd_err_t.LengthOutOfRange
    else Except.ok (msg_out, lt_l3_session_t.Established kc kr (nc + 1) (nr + 1))
  | _ => Except.error lt_cmd_err_t.NoSession

/-- The session id every successful avp_authenticate writes (as a C string):
the "avp_sess_" bytes followed by the fixed 32-character suffix. -/
def avp_session_id_value : List Nat := strBytes "avp_sess_jklmnopqrstuvwxyzABCDEFGHIJKLMNO"

/-- The fixed 32-character suffix, charset[9 % 62] .. charset[40 % 62]. -/
def avp_session_id_suffix : List Nat := strBytes "jklmnopqrstuvwxyzABCDEFGHIJKLMNO"

/-- C1: for every (non-NULL) vault handle and any workspace, TTL and chip
environment, avp_authenticate with pin == NULL issues no libtropic call at
all - in particular it never invokes lt_login - yet returns AVP_OK, sets
vault->authenticated to true, and sets session_state to AVP_SESSION_ACTIVE,
so the session becomes active without any credential check. -/
theorem avp_authenticate_null_pin_no_credential_check
    (v : avp_vault_t) (ws : Option String) (ttl : Nat) (lr : lt_ret_t) :
    (avp_authenticate v ws none ttl lr).lt_calls = [] ∧
    (avp_authenticate v ws none ttl lr).ret = avp_ret_t.AVP_OK ∧
    (avp_authenticate v ws none ttl lr).vault.authenticated = true ∧
    (avp_authenticate v ws none ttl lr).vault.session_state
      = avp_session_state_t.AVP_SESSION_ACTIVE := by
  cases ws <;> simp [avp_authenticate, avp_auth_finish]

/-- C6: after avp_deinit on a non-NULL vault, the return value is AVP_OK,
all 64 bytes that held the session identifier are zero, session_state is
AVP_SESSION_INACTIVE and authenticated is false. -/
theorem avp_deinit_zeroizes (v : avp_vault_t) :
    (avp_deinit v).1 = avp_ret_t.AVP_OK ∧
    (List.range 64).map (avp_deinit v).2.session_id = List.replicate 64 0 ∧
    (avp_deinit v).2.session_state = avp_session_state_t.AVP_SESSION_INACTIVE ∧
    (avp_deinit v).2.authenticated = false :=
  ⟨rfl, rfl, rfl, rfl⟩

/-- C7: deinitialization is idempotent - a second avp_deinit returns AVP_OK
again and produces exactly the same (zeroed, inactive) vault as the first
call. -/
theorem avp_deinit_idempotent (v : avp_vault_t) :
    avp_deinit (avp_deinit v).2 = avp_deinit v ∧
    (avp_deinit (avp_deinit v).2).1 = avp_ret_t.AVP_OK :=
  ⟨rfl, rfl⟩

/-- C9: lt_port_init configures the SPI bus exactly as the wire shape
requires - mode 0 (CPOL low, first-edge phase), 8-bit frames, MSB-first,
full-duplex 2-line master, software-managed NSS - and the chip select is
active low: asserting it (csn_low) drives the pin to the low level
GPIO_PIN_RESET, releasing it (csn_high) drives the high level GPIO_PIN_SET,
for every device prescaler and every observed pin readback. -/
theorem lt_port_init_spi_mode0_active_low_cs
    (p : Nat) (low_reads high_reads : Nat → GPIO_PinState) :
    (lt_port_init_spi_config p).CLKPolarity = SpiClkPolarity.SPI_POLARITY_LOW ∧
    (lt_port_init_spi_config p).CLKPhase = SpiClkPhase.SPI_PHASE_1EDGE ∧
    (lt_port_init_spi_config p).DataSize = SpiDataSize.SPI_DATASIZE_8BIT ∧
    (lt_port_init_spi_config p).FirstBit = SpiFirstBit.SPI_FIRSTBIT_MSB ∧
    (lt_port_init_spi_config p).Direction = SpiDirection.SPI_DIRECTION_2LINES ∧
    (lt_port_init_spi_config p).Mode = SpiMode.SPI_MODE_MASTER ∧
    (lt_port_init_spi_config p).NSS = SpiNss.SPI_NSS_SOFT ∧
    (lt_port_spi_csn_low low_reads).written = GPIO_PinState.GPIO_PIN_RESET ∧
    (lt_port_spi_csn_high high_reads).written = GPIO_PinState.GPIO_PIN_SET :=
  ⟨rfl, rfl, rfl, rfl, rfl, rfl, rfl, rfl, rfl⟩

/-- C2 counterexample: in the repository's own failed-application-firmware
scenario (the chip still reports startup mode after Startup_Req is issued
and the mode is re-read), the value the test requires lt_init to return is
LT_OK - the plain success code itself, not a dedicated warning value
distinct from it. -/
theorem lt_init_app_fw_fail_returns_plain_ok :
    lt_init_ret_when_app_fw_fails = lt_ret_t.LT_OK := rfl

/-- C2 (amended): when the chip reports startup mode and the application
firmware fails to boot, init completes and returns the plain success code
LT_OK (so callers may still do firmware update): every step the mock test
asserts - including lt_init against the never-booting chip, and the final
lt_deinit - is required to return LT_OK. -/
theorem lt_test_mock_invalid_app_fw_init_all_ok :
    ∀ a ∈ lt_test_mock_invalid_app_fw_init_asserts, a.2 = lt_ret_t.LT_OK := by
  decide

/-- Witness for the amended C2 theorem at the lt_init step itself. -/
theorem lt_test_mock_invalid_app_fw_init_all_ok_witness :
    ("lt_init", lt_ret_t.LT_OK).2 = lt_ret_t.LT_OK :=
  lt_test_mock_invalid_app_fw_init_all_ok ("lt_init", lt_ret_t.LT_OK) (by decide)

/-- C3 counterexample: the claim does not hold for every command.  With the
invalid secret name "1x" (first character not a letter) on an authenticated
vault, avp_delete - which never calls validate_secret_name - does not return
an argument error and does perform bus I/O: it issues lt_r_mem_data_erase
on the chip and returns AVP_OK. -/
theorem avp_delete_invalid_name_touches_bus :
    validate_secret_name (some (strBytes "1x")) = false ∧
    avp_delete sample_vault_auth (some (strBytes "1x")) true lt_ret_t.LT_OK
      = ⟨avp_ret_t.AVP_OK, some true, [LtCall.r_mem_data_erase 0]⟩ := by
  decide

/-- C3 (amended): for avp_store and avp_retrieve - the commands that
validate their arguments - argument errors are returned before any bus
I/O on an authenticated vault: an invalid secret name makes them return
AVP_ERR_INVALID_NAME with an empty libtropic-call trace, and a value length
above AVP_MAX_SECRET_VALUE_LEN makes avp_store return its length error
(AVP_ERR_INTERNAL in this code) with an empty trace, so the chip state is
untouched. -/
theorem avp_arg_errors_before_bus_io
    (v : avp_vault_t) (hv : v.authenticated = true)
    (n : List Nat) (vlen : Nat) (wret rret : lt_ret_t) (rlen : Nat) :
    (validate_secret_name (some n) = false →
      avp_store v (some n) true vlen wret = ⟨avp_ret_t.AVP_ERR_INVALID_NAME, []⟩ ∧
      avp_retrieve v (some n) true (some vlen) rret rlen
        = ⟨avp_ret_t.AVP_ERR_INVALID_NAME, vlen, []⟩) ∧
    (validate_secret_name (some n) = true → vlen > AVP_MAX_SECRET_VALUE_LEN →
      avp_store v (some n) true vlen wret = ⟨avp_ret_t.AVP_ERR_INTERNAL, []⟩) := by
  constructor
  · intro hname
    constructor
    · simp [avp_store, hv, hname]
    · simp [avp_retrieve, hv, hname]
  · intro hname hlen
    simp [avp_store, hv, hname, hlen]

/-- Witness for C3: the name "1x" (first character not a letter) is rejected
by store and retrieve with no libtropic call, and the valid name "key" with
a 65537-byte value is rejected by store with no libtropic call. -/
theorem avp_arg_errors_before_bus_io_witness :
    avp_store sample_vault_auth (some (strBytes "1x")) true 0 lt_ret_t.LT_OK
      = ⟨avp_ret_t.AVP_ERR_INVALID_NAME, []⟩ ∧
    avp_retrieve sample_vault_auth (some (strBytes "1x")) true (some 0) lt_ret_t.LT_OK 0
      = ⟨avp_ret_t.AVP_ERR_INVALID_NAME, 0, []⟩ ∧
    avp_store sample_vault_auth (some (strBytes "key")) true 65537 lt_ret_t.LT_OK
      = ⟨avp_ret_t.AVP_ERR_INTERNAL, []⟩ :=
  ⟨((avp_arg_errors_before_bus_io sample_vault_auth rfl (strBytes "1x") 0
      lt_ret_t.LT_OK lt_ret_t.LT_OK 0).1 (by decide)).1,
   ((avp_arg_errors_before_bus_io sample_vault_auth rfl (strBytes "1x") 0
      lt_ret_t.LT_OK lt_ret_t.LT_OK 0).1 (by decide)).2,
   (avp_arg_errors_before_bus_io sample_vault_auth rfl (strBytes "key") 65537
      lt_ret_t.LT_OK lt_ret_t.LT_OK 0).2 (by decide) (by decide)⟩

/-- C4: empty or unknown slots surface as typed values - on an authenticated
vault with a valid name, avp_retrieve maps the chip result
LT_L3_SLOT_IS_EMPTY to AVP_ERR_SECRET_NOT_FOUND, and avp_delete returns
AVP_OK whatever lt_r_mem_data_erase reports, with the non-NULL *deleted
out-flag recording whether the erase reported LT_OK (idempotent delete). -/
theorem avp_empty_slot_typed_and_idempotent_delete
    (v : avp_vault_t) (hv : v.authenticated = true) (n : List Nat)
    (hn : validate_secret_name (some n) = true) (vlen rlen : Nat)
    (eret : lt_ret_t) (dp : Bool) :
    (avp_retrieve v (some n) true (some vlen) lt_ret_t.LT_L3_SLOT_IS_EMPTY rlen).ret
      = avp_ret_t.AVP_ERR_SECRET_NOT_FOUND ∧
    (avp_delete v (some n) dp eret).ret = avp_ret_t.AVP_OK ∧
    (avp_delete v (some n) true eret).deleted = some (eret == lt_ret_t.LT_OK) := by
  refine ⟨?_, ?_, ?_⟩
  · simp [avp_retrieve, hv, hn]
  · simp [avp_delete, hv]
  · simp [avp_delete, hv]

/-- Witness for C4 at the name "key", with the erase reporting LT_FAIL. -/
theorem avp_empty_slot_typed_and_idempotent_delete_witness :
    (avp_retrieve sample_vault_auth (some (strBytes "key")) true (some 16)
       lt_ret_t.LT_L3_SLOT_IS_EMPTY 0).ret = avp_ret_t.AVP_ERR_SECRET_NOT_FOUND ∧
    (avp_delete sample_vault_auth (some (strBytes "key")) false lt_ret_t.LT_FAIL).ret
      = avp_ret_t.AVP_OK ∧
    (avp_delete sample_vault_auth (some (strBytes "key")) true lt_ret_t.LT_FAIL).deleted
      = some (lt_ret_t.LT_FAIL == lt_ret_t.LT_OK) :=
  avp_empty_slot_typed_and_idempotent_delete sample_vault_auth rfl
    (strBytes "key") (by decide) 16 0 lt_ret_t.LT_FAIL false

/-- C5: for every offset and tx_data_length, lt_port_spi_transfer rejects a
transfer with offset + tx_data_length > TR01_L1_LEN_MAX (256), returning
LT_L1_DATA_LEN_ERROR with no SPI operation performed; a transfer within the
bound is handed to the bus as one full-duplex transmit/receive; and every
SPI operation the port ever performs clocks out at most 256 bytes. -/
theorem lt_port_spi_transfer_frame_bound
    (offset tx_data_length timeout_ms : Nat) (hal : HAL_StatusTypeDef) :
    (offset + tx_data_length > TR01_L1_LEN_MAX →
      lt_port_spi_transfer offset tx_data_length timeout_ms hal
        = ⟨lt_ret_t.LT_L1_DATA_LEN_ERROR, []⟩) ∧
    (offset + tx_data_length ≤ TR01_L1_LEN_MAX →
      (lt_port_spi_transfer offset tx_data_length timeout_ms hal).spi_ops
        = [SpiOp.transmitReceive offset tx_data_length timeout_ms]) ∧
    (∀ op ∈ (lt_port_spi_transfer offset tx_data_length timeout_ms hal).spi_ops,
      SpiOp.frame_size op ≤ TR01_L1_LEN_MAX) := by
  refine ⟨fun hgt => ?_, fun hle => ?_, fun op hop => ?_⟩
  · simp [lt_port_spi_transfer, hgt]
  · rcases hal <;> simp [lt_port_spi_transfer, Nat.not_lt.mpr hle]
  · by_cases hb : offset + tx_data_length > TR01_L1_LEN_MAX
    · simp [lt_port_spi_transfer, hb] at hop
    · rcases hal <;> simp [lt_port_spi_transfer, if_neg hb] at hop <;>
        subst hop <;> simp only [SpiOp.frame_size] <;> omega

/-- Witness for C5: offset 200 with length 100 is rejected with no SPI
operation; offset 0 with length 256 is clocked out as a single 256-byte
transfer, within the frame bound. -/
theorem lt_port_spi_transfer_frame_bound_witness :
    lt_port_spi_transfer 200 100 5 HAL_StatusTypeDef.HAL_OK
      = ⟨lt_ret_t.LT_L1_DATA_LEN_ERROR, []⟩ ∧
    (lt_port_spi_transfer 0 256 5 HAL_StatusTypeDef.HAL_OK).spi_ops
      = [SpiOp.transmitReceive 0 256 5] ∧
    SpiOp.frame_size (SpiOp.transmitReceive 0 256 5) ≤ TR01_L1_LEN_MAX :=
  ⟨(lt_port_spi_transfer_frame_bound 200 100 5 HAL_StatusTypeDef.HAL_OK).1 (by decide),
   (lt_port_spi_transfer_frame_bound 0 256 5 HAL_StatusTypeDef.HAL_OK).2.1 (by decide),
   (lt_port_spi_transfer_frame_bound 0 256 5 HAL_StatusTypeDef.HAL_OK).2.2
     (SpiOp.transmitReceive 0 256 5) (by decide)⟩

/-- C8: after a successful handshake on pairing slot 0, a ping whose message
length is between 0 and TR01_PING_LEN_MAX (4096) succeeds, the received
reply bytes equal the sent bytes, and the command/result counters advance
from zero to one. -/
theorem lt_ping_echo_after_slot0_handshake
    (k_cmd k_res : List Nat) (s : lt_l3_session_t) (msg : List Nat)
    (hs : lt_handshake 0 k_cmd k_res = Except.ok s)
    (hlen : msg.length ≤ TR01_PING_LEN_MAX) :
    lt_ping s msg = Except.ok (msg, lt_l3_session_t.Established k_cmd k_res 1 1) := by
  have hs' : s = lt_l3_session_t.Established k_cmd k_res 0 0 := by
    simp [lt_handshake] at hs
    exact hs.symm
  subst hs'
  simp [lt_ping, Nat.not_lt.mpr hlen]

/-- Witness for C8: after a slot-0 handshake, ping([0x01, 0x02, 0x03]) is
echoed byte for byte with n_cmd = n_res = 1. -/
theorem lt_ping_echo_after_slot0_handshake_witness :
    lt_ping (lt_l3_session_t.Established [] [] 0 0) [1, 2, 3]
      = Except.ok ([1, 2, 3], lt_l3_session_t.Established [] [] 1 1) :=
  lt_ping_echo_after_slot0_handshake [] [] _ [1, 2, 3] rfl (by decide)

/-- Helper for C10: whatever the previous contents of the 64-byte buffer,
generate_session_id deposits the same fixed C string. -/
theorem session_id_cstring_generate_session_id (buf : Nat → Nat) :
    session_id_cstring (generate_session_id buf 64) = avp_session_id_value := rfl

/-- Helper for C10: every avp_authenticate call that returns AVP_OK leaves
the fixed session id string in the vault. -/
theorem avp_authenticate_ok_session_id
    (v : avp_vault_t) (ws : Option String) (pin : Option (List Nat))
    (ttl : Nat) (lr : lt_ret_t)
    (h : (avp_authenticate v ws pin ttl lr).ret = avp_ret_t.AVP_OK) :
    session_id_cstring (avp_authenticate v ws pin ttl lr).vault.session_id
      = avp_session_id_value := by
  cases ws <;> cases pin <;> by_cases hlr : lr = lt_ret_t.LT_OK <;>
    simp only [avp_authenticate, hlr, ne_eq, not_true_eq_false, not_false_eq_true,
      if_true, if_false, ite_true, ite_false] at h ⊢ <;>
    first
      | exact session_id_cstring_generate_session_id _
      | exact absurd h (by decide)

/-- C10: session-id generation is deterministic - any two avp_authenticate
calls that succeed (on any vaults, workspaces, pins, TTLs and chip
outcomes) leave identical session_id strings, namely the fixed bytes of
"avp_sess_" followed by the same fixed 32-character suffix, every character
of which is drawn from the constant charset; no randomness enters the
identifier. -/
theorem avp_session_id_deterministic
    (v1 v2 : avp_vault_t) (ws1 ws2 : Option String) (pin1 pin2 : Option (List Nat))
    (ttl1 ttl2 : Nat) (lr1 lr2 : lt_ret_t)
    (h1 : (avp_authenticate v1 ws1 pin1 ttl1 lr1).ret = avp_ret_t.AVP_OK)
    (h2 : (avp_authenticate v2 ws2 pin2 ttl2 lr2).ret = avp_ret_t.AVP_OK) :
    session_id_cstring (avp_authenticate v1 ws1 pin1 ttl1 lr1).vault.session_id
      = session_id_cstring (avp_authenticate v2 ws2 pin2 ttl2 lr2).vault.session_id ∧
    session_id_cstring (avp_authenticate v1 ws1 pin1 ttl1 lr1).vault.session_id
      = avp_session_id_value ∧
    avp_session_id_value = avp_session_pref ++ avp_session_id_suffix ∧
    avp_session_id_suffix.length = 32 ∧
    ∀ b ∈ avp_session_id_suffix, b ∈ avp_charset := by
  have e1 := avp_authenticate_ok_session_id v1 ws1 pin1 ttl1 lr1 h1
  have e2 := avp_authenticate_ok_session_id v2 ws2 pin2 ttl2 lr2 h2
  exact ⟨e1.trans e2.symm, e1, by decide, by decide, by decide⟩

/-- Witness for C10: a pinless call on a fresh vault and a PIN-carrying call
on a different vault produce the same fixed session id string. -/
theorem avp_session_id_deterministic_witness :
    session_id_cstring
        (avp_authenticate sample_vault none none 0 lt_ret_t.LT_OK).vault.session_id
      = session_id_cstring
          (avp_authenticate sample_vault_auth (some "agents") (some (strBytes "1234"))
            60 lt_ret_t.LT_OK).vault.session_id ∧
    session_id_cstring
        (avp_authenticate sample_vault none none 0 lt_ret_t.LT_OK).vault.session_id
      = avp_session_id_value ∧
    avp_session_id_value = avp_session_pref ++ avp_session_id_suffix ∧
    avp_session_id_suffix.length = 32 ∧
    ∀ b ∈ avp_session_id_suffix, b ∈ avp_charset :=
  avp_session_id_deterministic sample_vault sample_vault_auth none (some "agents")
    none (some (strBytes "1234")) 0 60 lt_ret_t.LT_OK lt_ret_t.LT_OK rfl rfl
